import Mathlib

/-!
Shallow embedding of the `Idle` service from `src/idle.ts` (ng2-idle).

The controller state is a record mirroring the private fields of the `Idle`
class.  Timer scheduling (`setInterval` / `clearInterval`) is modelled by an
explicit list of pending timers carried inside the state, with fresh numeric
handles drawn from a counter; a timer callback is identified by a `TimerKind`
tag since the source only ever schedules two closures
(`() => this.toggleState()` and `() => this.doCountdown()`).  Timer handles
returned by the host are always truthy at runtime, so the source's
`if (this[handleName])` test is modelled as the `Option` being `some`.

Event-emitter notifications are modelled as an explicit trace: every
operation returns the successor state together with the list of events it
emitted, in emission order.  The payload type of `onInterrupt` is opaque in
the source (`any`), so the event type is parameterised by it.  TypeScript
numbers that the spec constrains to integers are modelled as `Int`; the
uninitialised `countdown` field is `Option Int` (`none` = `undefined`, and
`undefined <= 0` is `false` in JS, which `cdLe0` reproduces).
-/

/-- `AutoResume` enum from `idle.ts`.  The spec's names map as:
`Disabled` = `disabled`, `ResumeAlways` = `idle`, `ResumeOnlyIfNotIdle` =
`notIdle`. -/
inductive AutoResume where
  | disabled
  | idle
  | notIdle
deriving DecidableEq, Repr

/-- Which of the two closures a scheduled timer invokes. -/
inductive TimerKind where
  | toggle
  | countdownTick
deriving DecidableEq, Repr

/-- One pending `setInterval` registration: its handle, callback tag,
period in milliseconds and milliseconds remaining until the next firing. -/
structure Timer where
  handle : Nat
  kind : TimerKind
  period : Int
  remaining : Int
deriving DecidableEq, Repr

/-- The only error kind of the service: invalid configuration argument
(the source throws `Error`). -/
inductive IdleError where
  | invalidArgument
deriving DecidableEq, Repr

/-- Argument type of `setTimeout`: TypeScript `number | boolean`. -/
inductive NumOrBool where
  | num (n : Int)
  | boolean (b : Bool)
deriving DecidableEq, Repr

/-- Notifications emitted through the five `EventEmitter` outputs, in
emission order.  `α` is the opaque payload type of `onInterrupt`. -/
inductive Event (α : Type) where
  | idleStart
  | idleEnd
  | timeoutWarning (remaining : Option Int)
  | timeout
  | interruptObserved (payload : Option α)
deriving DecidableEq, Repr

/-- Observable lifecycle actions performed on interrupt subscriptions,
keyed by the subscription's identity.  `attach` / `detach` are the source
hooks invoked by `resume` / `pause`; `subscribe` / `unsubscribe` are the
listener registration and its removal. -/
inductive SubAction where
  | attach (id : Nat)
  | detach (id : Nat)
  | subscribe (id : Nat)
  | unsubscribe (id : Nat)
deriving DecidableEq, Repr

/-- Modelled from the spec: the Interrupt Subscription class
(`interrupt.ts`, not under `src/`).  It wraps one Interrupt Source,
carries a paused/active flag, and a listener registration; `resume`
activates (calling the source's attach hook) if not already active,
`pause` deactivates (calling detach) if active, `subscribe` registers the
listener, `unsubscribe` disconnects it.  `id` is the subscription's
identity, `source` the identity of the wrapped source. -/
structure Interrupt where
  id : Nat
  source : Nat
  active : Bool
  subscribed : Bool
deriving DecidableEq, Repr

/-- Modelled from the spec: `resume` activates if not already active,
invoking the source's attach hook. -/
def Interrupt.resume (i : Interrupt) : Interrupt × List SubAction :=
  if i.active then (i, []) else ({ i with active := true }, [SubAction.attach i.id])

/-- Modelled from the spec: `pause` deactivates if active, invoking the
source's detach hook. -/
def Interrupt.pause (i : Interrupt) : Interrupt × List SubAction :=
  if i.active then ({ i with active := false }, [SubAction.detach i.id]) else (i, [])

/-- Modelled from the spec: registers the controller's signal handler. -/
def Interrupt.subscribeHandler (i : Interrupt) : Interrupt × List SubAction :=
  ({ i with subscribed := true }, [SubAction.subscribe i.id])

/-- Modelled from the spec: permanently disconnects the listener
registration. -/
def Interrupt.unsub (i : Interrupt) : Interrupt × List SubAction :=
  ({ i with subscribed := false }, [SubAction.unsubscribe i.id])

/-- The mutable fields of the `Idle` class, plus the instrumented
scheduler (`timers`, `nextHandle`) and a fresh-identity counter for new
subscriptions (`nextSubId`). -/
structure IdleState where
  idle : Int
  timeoutVal : Int
  autoResume : AutoResume
  interrupts : List Interrupt
  running : Bool
  idling : Bool
  idleHandle : Option Nat
  timeoutHandle : Option Nat
  countdown : Option Int
  timers : List Timer
  nextHandle : Nat
  nextSubId : Nat
deriving DecidableEq, Repr

/-- Field initialisers of a freshly constructed `Idle` instance. -/
def initIdle : IdleState :=
  { idle := 20 * 60
    timeoutVal := 30
    autoResume := AutoResume.idle
    interrupts := []
    running := false
    idling := false
    idleHandle := none
    timeoutHandle := none
    countdown := none
    timers := []
    nextHandle := 1
    nextSubId := 0 }

namespace Idle

/-- `getTimeout()`. -/
def getTimeout (s : IdleState) : Int := s.timeoutVal

/-- `getIdle()`. -/
def getIdle (s : IdleState) : Int := s.idle

/-- `getAutoResume()`. -/
def getAutoResume (s : IdleState) : AutoResume := s.autoResume

/-- `setAutoResume(value)`. -/
def setAutoResume (value : AutoResume) (s : IdleState) : AutoResume × IdleState :=
  (value, { s with autoResume := value })

/-- `getInterrupts()`. -/
def getInterrupts (s : IdleState) : List Interrupt := s.interrupts

/-- `isRunning()`. -/
def isRunning (s : IdleState) : Bool := s.running

/-- `isIdling()`. -/
def isIdling (s : IdleState) : Bool := s.idling

/-- `setTimeout(seconds)`: `false` disables (stores 0), a number `>= 0` is
stored, anything else throws.  The state component of the result is the
state at the moment the call returns or throws. -/
def setTimeout (arg : NumOrBool) (s : IdleState) : Except IdleError Int × IdleState :=
  match arg with
  | NumOrBool.boolean false => (Except.ok 0, { s with timeoutVal := 0 })
  | NumOrBool.num n =>
      if 0 ≤ n then (Except.ok n, { s with timeoutVal := n })
      else (Except.error IdleError.invalidArgument, s)
  | NumOrBool.boolean true => (Except.error IdleError.invalidArgument, s)

/-- `setIdle(seconds)`: throws when `seconds <= 0`, otherwise stores and
returns it. -/
def setIdle (seconds : Int) (s : IdleState) : Except IdleError Int × IdleState :=
  if seconds ≤ 0 then (Except.error IdleError.invalidArgument, s)
  else (Except.ok seconds, { s with idle := seconds })

/-- Remove the timer a handle refers to (no-op for `none`). -/
def clearTimerH (h : Option Nat) (ts : List Timer) : List Timer :=
  match h with
  | none => ts
  | some hh => ts.filter (fun t => t.handle ≠ hh)

/-- `safeClearInterval('idleHandle')`. -/
def safeClearIdleH (s : IdleState) : IdleState :=
  { s with timers := clearTimerH s.idleHandle s.timers, idleHandle := none }

/-- `safeClearInterval('timeoutHandle')`. -/
def safeClearTimeoutH (s : IdleState) : IdleState :=
  { s with timers := clearTimerH s.timeoutHandle s.timers, timeoutHandle := none }

/-- `setInterval(callback, periodMs)`: register a repeating timer and
return its fresh handle. -/
def setIntervalTimer (k : TimerKind) (period : Int) (s : IdleState) : IdleState × Nat :=
  let h := s.nextHandle
  ({ s with timers := s.timers ++ [⟨h, k, period, period⟩], nextHandle := h + 1 }, h)

/-- JS comparison `countdown <= 0` where `countdown` may be `undefined`
(`undefined <= 0` is `false`). -/
def cdLe0 (c : Option Int) : Bool :=
  match c with
  | none => false
  | some v => v ≤ 0

/-- `timeout()`: clears both timers, forces `idling = true`,
`running = false`, `countdown = 0`, emits the timeout notification. -/
def timeout (α : Type) (s : IdleState) : IdleState × List (Event α) :=
  let s1 := safeClearTimeoutH (safeClearIdleH s)
  ({ s1 with idling := true, running := false, countdown := some 0 },
   [Event.timeout])

/-- `doCountdown()`: stale-timer guard, then either hard timeout (when
`countdown <= 0`) or a warning carrying the remaining seconds followed by
the decrement. -/
def doCountdown (α : Type) (s : IdleState) : IdleState × List (Event α) :=
  if s.idling = false then (s, [])
  else if cdLe0 s.countdown then timeout α s
  else ({ s with countdown := s.countdown.map (fun c => c - 1) },
        [Event.timeoutWarning s.countdown])

/-- `toggleState()`: flip `idling`; entering idle emits `idle-start` and,
when the timeout feature is enabled, initialises the countdown, runs one
immediate countdown step and schedules the 1-second repeating countdown
timer; leaving idle emits `idle-end`.  The idle-boundary timer is cleared
afterwards in every branch. -/
def toggleState (α : Type) (s : IdleState) : IdleState × List (Event α) :=
  let s1 := { s with idling := !s.idling }
  if s1.idling then
    if s1.timeoutVal > 0 then
      let s2 := { s1 with countdown := some s1.timeoutVal }
      let r := doCountdown α s2
      let r2 := setIntervalTimer TimerKind.countdownTick 1000 r.1
      let s3 := { r2.1 with timeoutHandle := some r2.2 }
      (safeClearIdleH s3, Event.idleStart :: r.2)
    else
      (safeClearIdleH s1, [Event.idleStart])
  else
    (safeClearIdleH s1, [Event.idleEnd])

/-- `watch()`: clear both timers, toggle out of idling if needed, set
`running`, schedule the idle-boundary timer for `idle * 1000` ms. -/
def watch (α : Type) (s : IdleState) : IdleState × List (Event α) :=
  let s1 := safeClearTimeoutH (safeClearIdleH s)
  let r := if s1.idling then toggleState α s1 else (s1, [])
  let s2 := { r.1 with running := true }
  let r2 := setIntervalTimer TimerKind.toggle (s2.idle * 1000) s2
  ({ r2.1 with idleHandle := some r2.2 }, r.2)

/-- `stop()`: clear both timers, `idling = false`, `running = false`; the
body contains no emission, so the event trace is empty. -/
def stop (α : Type) (s : IdleState) : IdleState × List (Event α) :=
  let s1 := safeClearTimeoutH (safeClearIdleH s)
  ({ s1 with idling := false, running := false }, [])

/-- `interrupt(force, eventArgs)`: no-op unless running; emits the
interrupt-observed notification, then resumes via `watch()` when forced,
or when the policy allows. -/
def interrupt (α : Type) (force : Option Bool) (eventArgs : Option α)
    (s : IdleState) : IdleState × List (Event α) :=
  if s.running = false then (s, [])
  else
    if force = some true ∨ s.autoResume = AutoResume.idle ∨
        (s.autoResume = AutoResume.notIdle ∧ s.idling = false) then
      let r := watch α s
      (r.1, Event.interruptObserved eventArgs :: r.2)
    else (s, [Event.interruptObserved eventArgs])

/-- `clearInterrupts()`: pause and unsubscribe every subscription, then
empty the list. -/
def clearInterrupts (s : IdleState) : IdleState × List SubAction :=
  let acts := s.interrupts.flatMap (fun sub =>
    (Interrupt.pause sub).2 ++ (Interrupt.unsub (Interrupt.pause sub).1).2)
  ({ s with interrupts := [] }, acts)

/-- The loop body of `setInterrupts`: for each source create a fresh
subscription, register the handler, activate it, and collect it. -/
def attachAll (sources : List Nat) (nid : Nat) : List Interrupt × List SubAction × Nat :=
  match sources with
  | [] => ([], [], nid)
  | src :: rest =>
      let i0 : Interrupt := ⟨nid, src, false, false⟩
      let r1 := Interrupt.subscribeHandler i0
      let r2 := Interrupt.resume r1.1
      let rec3 := attachAll rest (nid + 1)
      (r2.1 :: rec3.1, r1.2 ++ r2.2 ++ rec3.2.1, rec3.2.2)

/-- `setInterrupts(sources)`: clear the existing subscriptions, then
build, register and activate one subscription per source; the new list
is stored and returned. -/
def setInterrupts (sources : List Nat) (s : IdleState) : IdleState × List SubAction :=
  let r0 := clearInterrupts s
  let r1 := attachAll sources r0.1.nextSubId
  ({ r0.1 with interrupts := r1.1, nextSubId := r1.2.2 }, r0.2 ++ r1.2.1)

/-- Dispatch a fired timer to its callback. -/
def fireTimer (α : Type) (t : Timer) (s : IdleState) : IdleState × List (Event α) :=
  match t.kind with
  | TimerKind.toggle => toggleState α s
  | TimerKind.countdownTick => doCountdown α s

/-- Run the callbacks of the due handles in order; a handle whose timer
was cleared by an earlier callback of the same tick is skipped. -/
def runDue (α : Type) (hs : List Nat) (s : IdleState) : IdleState × List (Event α) :=
  match hs with
  | [] => (s, [])
  | h :: rest =>
      match s.timers.find? (fun t => t.handle == h) with
      | none => runDue α rest s
      | some t =>
          let r := fireTimer α t s
          let r2 := runDue α rest r.1
          (r2.1, r.2 ++ r2.2)

/-- Advance virtual time by one second: every timer's remaining time
drops by 1000 ms, due timers are reset to their period and their
callbacks run in registration order. -/
def advance1s (α : Type) (s : IdleState) : IdleState × List (Event α) :=
  let due := (s.timers.filter (fun t => t.remaining ≤ 1000)).map Timer.handle
  let s1 := { s with timers := s.timers.map (fun t =>
      if t.remaining ≤ 1000 then { t with remaining := t.period }
      else { t with remaining := t.remaining - 1000 }) }
  runDue α due s1

end Idle

/-! Derived observation functions for subscription lifecycle traces. -/

/-- The teardown actions `clearInterrupts` performs, subscription by
subscription: a detach for each active one, then the listener removal. -/
def teardownActs : List Interrupt → List SubAction
  | [] => []
  | i :: rest =>
      (if i.active then [SubAction.detach i.id] else []) ++
        [SubAction.unsubscribe i.id] ++ teardownActs rest

/-- The setup actions `setInterrupts` performs for the new sources:
register the handler, then attach, with consecutive fresh identities. -/
def setupActs : List Nat → Nat → List SubAction
  | [], _ => []
  | _ :: rest, nid =>
      SubAction.subscribe nid :: SubAction.attach nid :: setupActs rest (nid + 1)

/-- The subscriptions `setInterrupts` ends up storing: one active,
subscribed wrapper per source, with consecutive fresh identities. -/
def newSubs : List Nat → Nat → List Interrupt
  | [], _ => []
  | src :: rest, nid => ⟨nid, src, true, true⟩ :: newSubs rest (nid + 1)

/-- Identities of the currently attached (active) subscriptions. -/
def activeIds (subs : List Interrupt) : List Nat :=
  (subs.filter (fun i => i.active)).map Interrupt.id

/-- Effect of one lifecycle action on the set of attached subscription
identities. -/
def applyAct (att : List Nat) (a : SubAction) : List Nat :=
  match a with
  | SubAction.attach i => i :: att
  | SubAction.detach i => att.filter (fun x => x ≠ i)
  | SubAction.subscribe _ => att
  | SubAction.unsubscribe _ => att

/-- Attached subscription identities after executing a list of actions. -/
def attachedAfter (att : List Nat) (acts : List SubAction) : List Nat :=
  acts.foldl applyAct att

/-! Concrete states used to instantiate the universally quantified
theorems. -/

/-- The scenario configuration of claim C2: `setIdle(1)` and
`setTimeout(3)` applied to a fresh instance. -/
def c2Config : IdleState :=
  (Idle.setTimeout (NumOrBool.num 3) (Idle.setIdle 1 initIdle).2).2

/-- C2 scenario: state and events at `watch()`. -/
def c2Run0 : IdleState × List (Event Nat) := Idle.watch Nat c2Config

/-- C2 scenario: state and events after 1 second. -/
def c2Run1 : IdleState × List (Event Nat) := Idle.advance1s Nat c2Run0.1

/-- C2 scenario: state and events after 2 seconds. -/
def c2Run2 : IdleState × List (Event Nat) := Idle.advance1s Nat c2Run1.1

/-- C2 scenario: state and events after 3 seconds. -/
def c2Run3 : IdleState × List (Event Nat) := Idle.advance1s Nat c2Run2.1

/-- C2 scenario: state and events after 4 seconds. -/
def c2Run4 : IdleState × List (Event Nat) := Idle.advance1s Nat c2Run3.1

/-- C2 scenario: state and events after 5 seconds. -/
def c2Run5 : IdleState × List (Event Nat) := Idle.advance1s Nat c2Run4.1

/-- A running controller with policy `notIdle` that is currently idling:
the interesting corner of the interrupt resume condition. -/
def exRunning : IdleState :=
  { initIdle with running := true, autoResume := AutoResume.notIdle, idling := true }

/-- A controller holding one active, subscribed interrupt subscription. -/
def exSubsState : IdleState :=
  { initIdle with interrupts := [⟨0, 9, true, true⟩], nextSubId := 1 }

/-! Claim theorems. -/

/-- C10: a freshly constructed controller has idle duration 1200 seconds,
timeout duration 30 seconds, auto-resume policy ResumeAlways (the enum
value `AutoResume.idle`), an empty subscription set, `running = false`
and `idling = false`, so nothing is monitored until `watch()`. -/
theorem C10_initial_state :
    initIdle.idle = 1200 ∧ initIdle.timeoutVal = 30 ∧
    initIdle.autoResume = AutoResume.idle ∧ initIdle.interrupts = [] ∧
    initIdle.running = false ∧ initIdle.idling = false := by
  refine ⟨by decide, by decide, rfl, rfl, rfl, rfl⟩

/-- C5: `setIdle` raises InvalidArgument exactly when `seconds ≤ 0`,
leaving the state unchanged; for `seconds > 0` it stores and returns the
value, `getIdle` subsequently returns it, and no other field changes. -/
theorem C5_setIdle_spec (seconds : Int) (s : IdleState) :
    (seconds ≤ 0 →
      Idle.setIdle seconds s = (Except.error IdleError.invalidArgument, s)) ∧
    (0 < seconds →
      Idle.setIdle seconds s = (Except.ok seconds, { s with idle := seconds }) ∧
      Idle.getIdle (Idle.setIdle seconds s).2 = seconds) := by
  constructor
  · intro h
    simp [Idle.setIdle, h]
  · intro h
    have h' : ¬ seconds ≤ 0 := not_le.mpr h
    constructor
    · simp [Idle.setIdle, h']
    · simp [Idle.setIdle, Idle.getIdle, h']

/-- Witness for C5 at seconds = -1 (error branch) and seconds = 5
(success branch). -/
theorem C5_setIdle_spec_witness :
    Idle.setIdle (-1) initIdle = (Except.error IdleError.invalidArgument, initIdle) ∧
    (Idle.setIdle 5 initIdle = (Except.ok 5, { initIdle with idle := 5 }) ∧
      Idle.getIdle (Idle.setIdle 5 initIdle).2 = 5) :=
  ⟨(C5_setIdle_spec (-1) initIdle).1 (by decide),
   (C5_setIdle_spec 5 initIdle).2 (by decide)⟩

/-- C6: `setTimeout` accepts the disable value `false` (storing and
returning 0) and every non-negative number (storing and returning it);
it raises InvalidArgument for negative numbers and for the non-numeric
value `true`, leaving the stored timeout (indeed the whole state)
unchanged in the error cases. -/
theorem C6_setTimeout_spec (n m : Int) (s : IdleState) :
    Idle.setTimeout (NumOrBool.boolean false) s =
      (Except.ok 0, { s with timeoutVal := 0 }) ∧
    (0 ≤ n →
      Idle.setTimeout (NumOrBool.num n) s = (Except.ok n, { s with timeoutVal := n })) ∧
    (m < 0 →
      Idle.setTimeout (NumOrBool.num m) s = (Except.error IdleError.invalidArgument, s)) ∧
    Idle.setTimeout (NumOrBool.boolean true) s =
      (Except.error IdleError.invalidArgument, s) := by
  refine ⟨rfl, ?_, ?_, rfl⟩
  · intro h
    simp [Idle.setTimeout, h]
  · intro h
    have h' : ¬ 0 ≤ m := not_le.mpr h
    simp [Idle.setTimeout, h']

/-- Witness for C6 at n = 3 and m = -5. -/
theorem C6_setTimeout_spec_witness :
    Idle.setTimeout (NumOrBool.boolean false) initIdle =
      (Except.ok 0, { initIdle with timeoutVal := 0 }) ∧
    Idle.setTimeout (NumOrBool.num 3) initIdle =
      (Except.ok 3, { initIdle with timeoutVal := 3 }) ∧
    Idle.setTimeout (NumOrBool.num (-5)) initIdle =
      (Except.error IdleError.invalidArgument, initIdle) ∧
    Idle.setTimeout (NumOrBool.boolean true) initIdle =
      (Except.error IdleError.invalidArgument, initIdle) :=
  ⟨(C6_setTimeout_spec 3 (-5) initIdle).1,
   (C6_setTimeout_spec 3 (-5) initIdle).2.1 (by decide),
   (C6_setTimeout_spec 3 (-5) initIdle).2.2.1 (by decide),
   (C6_setTimeout_spec 3 (-5) initIdle).2.2.2⟩

/-- C3: for every starting state, `timeout()` removes the timers held by
the idle and countdown handles and nulls both handles, sets
`idling = true`, `running = false`, `countdown = 0`, and emits exactly
the payload-free timeout notification. -/
theorem C3_timeout_spec (α : Type) (s : IdleState) :
    Idle.timeout α s =
      ({ s with
          timers := Idle.clearTimerH s.timeoutHandle (Idle.clearTimerH s.idleHandle s.timers),
          idleHandle := none, timeoutHandle := none,
          idling := true, running := false, countdown := some 0 },
       [Event.timeout]) := rfl

/-- C8: `stop()` is idempotent: a second `stop()` returns the state of
the first unchanged (so it cancels nothing still pending) and emits no
notification. -/
theorem C8_stop_idempotent (α : Type) (s : IdleState) :
    Idle.stop α (Idle.stop α s).1 = ((Idle.stop α s).1, []) := rfl

/-- C7: when `running = false`, `interrupt` emits nothing and returns
the state unchanged, whatever the force flag and payload. -/
theorem C7_interrupt_not_running (α : Type) (force : Option Bool)
    (payload : Option α) (s : IdleState) (h : s.running = false) :
    Idle.interrupt α force payload s = (s, []) := by
  simp [Idle.interrupt, h]

/-- Witness for C7: a fresh instance is not running. -/
theorem C7_interrupt_not_running_witness :
    initIdle.running = false ∧
    Idle.interrupt Nat (some true) (some 7) initIdle = (initIdle, []) :=
  ⟨rfl, C7_interrupt_not_running Nat (some true) (some 7) initIdle rfl⟩


/-- C4: for every starting state, `watch()` removes the timers held by
the idle and countdown handles, emits `idle-end` exactly when the
controller was idling (flipping `idling` back to `false`), sets
`running = true`, and schedules a fresh idle-boundary timer of period
`idle * 1000` ms whose firing runs the idle/active toggle. -/
theorem C4_watch_spec (α : Type) (s : IdleState) :
    (Idle.watch α s).2 = (if s.idling then [Event.idleEnd] else []) ∧
    (Idle.watch α s).1.running = true ∧
    (Idle.watch α s).1.idling = false ∧
    (Idle.watch α s).1.timeoutHandle = none ∧
    (Idle.watch α s).1.idleHandle = some s.nextHandle ∧
    (Idle.watch α s).1.timers =
      Idle.clearTimerH s.timeoutHandle (Idle.clearTimerH s.idleHandle s.timers) ++
        [⟨s.nextHandle, TimerKind.toggle, s.idle * 1000, s.idle * 1000⟩] := by
  cases hid : s.idling <;>
    simp [Idle.watch, Idle.toggleState, Idle.setIntervalTimer,
      Idle.safeClearIdleH, Idle.safeClearTimeoutH, Idle.clearTimerH, hid]

/-- C1: when `running = true`, `interrupt(force, payload)` first emits
the interrupt-observed notification carrying the payload and then
behaves as `watch()` exactly when `force` is `true`, the policy is
ResumeAlways (`AutoResume.idle`), or the policy is ResumeOnlyIfNotIdle
(`AutoResume.notIdle`) and the controller is not idling; otherwise the
state is unchanged after the emission. -/
theorem C1_interrupt_running_spec (α : Type) (force : Option Bool)
    (payload : Option α) (s : IdleState) (h : s.running = true) :
    Idle.interrupt α force payload s =
      if force = some true ∨ s.autoResume = AutoResume.idle ∨
          (s.autoResume = AutoResume.notIdle ∧ s.idling = false) then
        ((Idle.watch α s).1, Event.interruptObserved payload :: (Idle.watch α s).2)
      else (s, [Event.interruptObserved payload]) := by
  simp [Idle.interrupt, h]

/-- Witness for C1: a forced interrupt on a running, idling controller
with policy `notIdle` resumes via `watch()`. -/
theorem C1_interrupt_running_spec_witness :
    exRunning.running = true ∧
    Idle.interrupt Nat (some true) (some 3) exRunning =
      (if (some true : Option Bool) = some true ∨
          exRunning.autoResume = AutoResume.idle ∨
          (exRunning.autoResume = AutoResume.notIdle ∧ exRunning.idling = false) then
        ((Idle.watch Nat exRunning).1,
          Event.interruptObserved (some 3) :: (Idle.watch Nat exRunning).2)
      else (exRunning, [Event.interruptObserved (some 3)])) :=
  ⟨rfl, C1_interrupt_running_spec Nat (some true) (some 3) exRunning rfl⟩

/-- C2 counterexample: with `idle = 1` and `timeoutVal = 3`, the claimed
notification timeline (only `idle-start` at 1 s; warnings 2, 1, 0 at
2 s, 3 s, 4 s; timeout at 5 s) is false for the code: the first
countdown step runs synchronously when idling starts, so 1 s already
emits `timeout-warning(3)` next to `idle-start`. -/
theorem C2_countdown_claim_counterexample :
    ¬ (c2Run1.2 = [Event.idleStart] ∧
       c2Run2.2 = [Event.timeoutWarning (some 2)] ∧
       c2Run3.2 = [Event.timeoutWarning (some 1)] ∧
       c2Run4.2 = [Event.timeoutWarning (some 0)] ∧
       c2Run5.2 = [Event.timeout] ∧
       c2Run5.1.running = false) := by
  intro h
  exact absurd h.1 (by decide)

/-- C2 amended: with `idle = 1` and `timeoutVal = 3`, `watch()` emits
nothing; after 1 second `idle-start` is followed immediately by
`timeout-warning(3)`; the next two seconds emit `timeout-warning(2)` and
`timeout-warning(1)`; on the tick after that the timeout notification is
emitted and `running` becomes `false`. -/
theorem C2_countdown_amended_trace :
    c2Run0.2 = [] ∧
    c2Run1.2 = [Event.idleStart, Event.timeoutWarning (some 3)] ∧
    c2Run2.2 = [Event.timeoutWarning (some 2)] ∧
    c2Run3.2 = [Event.timeoutWarning (some 1)] ∧
    c2Run4.2 = [Event.timeout] ∧
    c2Run4.1.running = false := by
  refine ⟨by decide, by decide, by decide, by decide, by decide, by decide⟩


/-! Helper lemmas about subscription lifecycle traces. -/

theorem attachedAfter_append (att : List Nat) (l1 l2 : List SubAction) :
    attachedAfter att (l1 ++ l2) = attachedAfter (attachedAfter att l1) l2 := by
  simp [attachedAfter, List.foldl_append]

theorem attachedAfter_pres (P : Nat → Prop) :
    ∀ (acts : List SubAction) (att : List Nat),
      (∀ x ∈ att, P x) → (∀ i, SubAction.attach i ∈ acts → P i) →
      ∀ x ∈ attachedAfter att acts, P x := by
  intro acts
  induction acts with
  | nil =>
      intro att hatt _ x hx
      exact hatt x hx
  | cons a rest ih =>
      intro att hatt hacts x hx
      have hx' : x ∈ attachedAfter (applyAct att a) rest := by
        simpa [attachedAfter] using hx
      refine ih (applyAct att a) ?_ ?_ x hx'
      · intro y hy
        cases a with
        | attach i =>
            rcases List.mem_cons.mp (by simpa [applyAct] using hy) with h1 | h1
            · exact h1 ▸ hacts i (List.mem_cons_self _ _)
            · exact hatt y h1
        | detach i =>
            have hy' : y ∈ att.filter (fun x => x ≠ i) := by simpa [applyAct] using hy
            exact hatt y (List.mem_of_mem_filter hy')
        | subscribe i => exact hatt y (by simpa [applyAct] using hy)
        | unsubscribe i => exact hatt y (by simpa [applyAct] using hy)
      · intro i hi
        exact hacts i (List.mem_cons_of_mem _ hi)

theorem attach_not_mem_teardown :
    ∀ (subs : List Interrupt) (i : Nat), SubAction.attach i ∉ teardownActs subs := by
  intro subs
  induction subs with
  | nil =>
      intro i h
      simp [teardownActs] at h
  | cons j rest ih =>
      intro i h
      by_cases hj : j.active <;> simp [teardownActs, hj] at h <;> exact ih i h

theorem attach_mem_setup :
    ∀ (sources : List Nat) (nid i : Nat),
      SubAction.attach i ∈ setupActs sources nid → nid ≤ i := by
  intro sources
  induction sources with
  | nil =>
      intro nid i h
      simp [setupActs] at h
  | cons src rest ih =>
      intro nid i h
      simp [setupActs] at h
      rcases h with h | h
      · omega
      · have := ih (nid + 1) i h
        omega

theorem activeIds_cons (j : Interrupt) (rest : List Interrupt) :
    activeIds (j :: rest) =
      if j.active then j.id :: activeIds rest else activeIds rest := by
  by_cases hj : j.active <;> simp [activeIds, hj]

theorem teardown_clears :
    ∀ (subs : List Interrupt) (att : List Nat),
      (∀ x ∈ att, x ∈ activeIds subs) →
      attachedAfter att (teardownActs subs) = [] := by
  intro subs
  induction subs with
  | nil =>
      intro att h
      have hnil : att = [] := by
        refine List.eq_nil_iff_forall_not_mem.mpr fun x hx => ?_
        have := h x hx
        simp [activeIds] at this
      simp [teardownActs, attachedAfter, hnil]
  | cons j rest ih =>
      intro att h
      by_cases hj : j.active
      · have hstep : attachedAfter att (teardownActs (j :: rest)) =
            attachedAfter (att.filter (fun x => x ≠ j.id)) (teardownActs rest) := by
          simp [teardownActs, hj, attachedAfter, applyAct]
        rw [hstep]
        refine ih _ fun x hx => ?_
        have hx' : x ∈ att ∧ x ≠ j.id := by simpa using hx
        have hmem := h x hx'.1
        rw [activeIds_cons, if_pos hj] at hmem
        rcases List.mem_cons.mp hmem with h1 | h1
        · exact absurd h1 hx'.2
        · exact h1
      · have hstep : attachedAfter att (teardownActs (j :: rest)) =
            attachedAfter att (teardownActs rest) := by
          simp [teardownActs, hj, attachedAfter, applyAct]
        rw [hstep]
        refine ih _ fun x hx => ?_
        have hmem := h x hx
        rwa [activeIds_cons, if_neg hj] at hmem

theorem flatMap_teardown (l : List Interrupt) :
    (l.flatMap fun sub =>
      (Interrupt.pause sub).2 ++ (Interrupt.unsub (Interrupt.pause sub).1).2) =
      teardownActs l := by
  induction l with
  | nil => rfl
  | cons j rest ih =>
      have hcons : ((j :: rest).flatMap fun sub =>
          (Interrupt.pause sub).2 ++ (Interrupt.unsub (Interrupt.pause sub).1).2) =
          ((Interrupt.pause j).2 ++ (Interrupt.unsub (Interrupt.pause j).1).2) ++
            (rest.flatMap fun sub =>
              (Interrupt.pause sub).2 ++ (Interrupt.unsub (Interrupt.pause sub).1).2) :=
        List.flatMap_cons ..
      rw [hcons, ih]
      by_cases hj : j.active <;>
        simp [teardownActs, Interrupt.pause, Interrupt.unsub, hj]

theorem clearInterrupts_eq (s : IdleState) :
    Idle.clearInterrupts s = ({ s with interrupts := [] }, teardownActs s.interrupts) := by
  simp [Idle.clearInterrupts, flatMap_teardown]

theorem attachAll_eq :
    ∀ (sources : List Nat) (nid : Nat),
      Idle.attachAll sources nid =
        (newSubs sources nid, setupActs sources nid, nid + sources.length) := by
  intro sources
  induction sources with
  | nil =>
      intro nid
      simp [Idle.attachAll, newSubs, setupActs]
  | cons src rest ih =>
      intro nid
      simp [Idle.attachAll, newSubs, setupActs,
        Interrupt.subscribeHandler, Interrupt.resume, ih]
      omega

theorem activeIds_lt (s : IdleState)
    (hfresh : ∀ i ∈ s.interrupts, i.id < s.nextSubId) :
    ∀ x ∈ activeIds s.interrupts, x < s.nextSubId := by
  intro x hx
  simp only [activeIds, List.mem_map, List.mem_filter] at hx
  obtain ⟨i, ⟨hmem, _⟩, hid⟩ := hx
  exact hid ▸ hfresh i hmem

theorem setInterrupts_eq (sources : List Nat) (s : IdleState) :
    Idle.setInterrupts sources s =
      ({ s with interrupts := newSubs sources s.nextSubId,
                nextSubId := s.nextSubId + sources.length },
       teardownActs s.interrupts ++ setupActs sources s.nextSubId) := by
  simp [Idle.setInterrupts, clearInterrupts_eq, attachAll_eq]

/-- C9: provided the stored subscription identities are below the fresh
counter, `setInterrupts` stores and returns one fresh active subscribed
wrapper per source; its action trace is the full teardown of the old
subscriptions (detach each active one, unsubscribe all) followed by the
registration and attach of the new ones; and at every point of the trace
the attached identities are all old or all new — an old and a new
subscription are never attached simultaneously. -/
theorem C9_setInterrupts_spec (sources : List Nat) (s : IdleState)
    (hfresh : ∀ i ∈ s.interrupts, i.id < s.nextSubId) :
    (Idle.setInterrupts sources s).1.interrupts = newSubs sources s.nextSubId ∧
    (Idle.setInterrupts sources s).2 =
      teardownActs s.interrupts ++ setupActs sources s.nextSubId ∧
    ∀ p q : List SubAction,
      (Idle.setInterrupts sources s).2 = p ++ q →
      (∀ x ∈ attachedAfter (activeIds s.interrupts) p, x < s.nextSubId) ∨
      (∀ x ∈ attachedAfter (activeIds s.interrupts) p, s.nextSubId ≤ x) := by
  refine ⟨by rw [setInterrupts_eq], by rw [setInterrupts_eq], ?_⟩
  intro p q hpq
  rw [setInterrupts_eq] at hpq
  rcases List.append_eq_append_iff.mp hpq.symm with ⟨a, ha1, ha2⟩ | ⟨c, hc1, hc2⟩
  · -- the teardown extends p with a: p is a prefix of the teardown
    left
    refine attachedAfter_pres _ p (activeIds s.interrupts)
      (activeIds_lt s hfresh) (fun i hi => ?_)
    have : SubAction.attach i ∈ teardownActs s.interrupts :=
      ha1 ▸ List.mem_append_left _ hi
    exact absurd this (attach_not_mem_teardown _ i)
  · -- p = teardown ++ c with c a prefix of the setup
    right
    subst hc1
    rw [attachedAfter_append,
      teardown_clears s.interrupts (activeIds s.interrupts) (fun x hx => hx)]
    refine attachedAfter_pres _ c [] (by simp) (fun i hi => ?_)
    have : SubAction.attach i ∈ setupActs sources s.nextSubId :=
      hc2 ▸ List.mem_append_left _ hi
    exact attach_mem_setup sources s.nextSubId i this

/-- Witness for C9: replacing one stored active subscription by
subscriptions for the two sources 5 and 6. -/
theorem C9_setInterrupts_spec_witness :
    (∀ i ∈ exSubsState.interrupts, i.id < exSubsState.nextSubId) ∧
    ((Idle.setInterrupts [5, 6] exSubsState).1.interrupts =
        newSubs [5, 6] exSubsState.nextSubId ∧
      (Idle.setInterrupts [5, 6] exSubsState).2 =
        teardownActs exSubsState.interrupts ++ setupActs [5, 6] exSubsState.nextSubId ∧
      ∀ p q : List SubAction,
        (Idle.setInterrupts [5, 6] exSubsState).2 = p ++ q →
        (∀ x ∈ attachedAfter (activeIds exSubsState.interrupts) p,
            x < exSubsState.nextSubId) ∨
        (∀ x ∈ attachedAfter (activeIds exSubsState.interrupts) p,
            exSubsState.nextSubId ≤ x)) :=
  ⟨by decide, C9_setInterrupts_spec [5, 6] exSubsState (by decide)⟩
